import Mathlib

/-!
Shallow embedding of the `agent` state-tracker module (Go): request and
container lifecycle trackers with telemetry and slot-notifier side effects.

Modelling conventions:
- The Go enums `RequestStateType`/`ContainerStateType` (integer tags assigned
  by `iota`) become inductive types with an explicit `toNat` giving each
  constructor its `iota` value; integer comparisons in the source become
  comparisons of `toNat`.
- `time.Time` values are modelled as `Int` nanosecond timestamps; the Go zero
  `time.Time` is `0`, and `now.IsZero()` is `now = 0`.  `time.Now()` becomes an
  explicit `clock : Int` argument.
- Side effects (`stats.Record`, slot-queue hook calls) become an emitted list
  of effect events returned alongside the updated tracker state.
- A `*slotQueue` pointer is modelled by whether it is non-nil (`Bool`), since
  the tracker only invokes hooks on it.
- The per-tracker mutex serializes the compare-and-update step, so a run of
  concurrent calls is modelled as the calls applied in some sequential order.
-/

/-- Go: `type RequestStateType int` with constants
`RequestStateNone, RequestStateWait, RequestStateExec, RequestStateDone` by `iota`. -/
inductive RequestStateType : Type
  | RequestStateNone
  | RequestStateWait
  | RequestStateExec
  | RequestStateDone
deriving DecidableEq, Repr, Fintype

open RequestStateType

/-- The `iota` integer value of each `RequestStateType` constant. -/
def RequestStateType.toNat : RequestStateType → Nat
  | RequestStateNone => 0
  | RequestStateWait => 1
  | RequestStateExec => 2
  | RequestStateDone => 3

/-- Go: trailing sentinel `RequestStateMax`, the next `iota` value after the real states. -/
def RequestStateMax : Nat := 4

/-- Go: `type ContainerStateType int` with constants
`ContainerStateNone .. ContainerStateDone` by `iota`. -/
inductive ContainerStateType : Type
  | ContainerStateNone
  | ContainerStateWait
  | ContainerStateStart
  | ContainerStateIdle
  | ContainerStatePaused
  | ContainerStateBusy
  | ContainerStateDone
deriving DecidableEq, Repr, Fintype

open ContainerStateType

/-- The `iota` integer value of each `ContainerStateType` constant. -/
def ContainerStateType.toNat : ContainerStateType → Nat
  | ContainerStateNone => 0
  | ContainerStateWait => 1
  | ContainerStateStart => 2
  | ContainerStateIdle => 3
  | ContainerStatePaused => 4
  | ContainerStateBusy => 5
  | ContainerStateDone => 6

/-- Go: trailing sentinel `ContainerStateMax`, the next `iota` value after the real states. -/
def ContainerStateMax : Nat := 7

/-- Go: `var containerStateKeys = [ContainerStateMax]string{...}` (all seven entries listed). -/
def containerStateKeys : List String :=
  ["none", "wait", "start", "idle", "paused", "busy", "done"]

/-- Go: `var containerGaugeKeys = [ContainerStateMax]string{...}`; the source literal
lists six entries, so the seventh (index of `ContainerStateDone`) is Go's zero
value `""`. -/
def containerGaugeKeys : List String :=
  ["",
   "container_wait_total",
   "container_start_total",
   "container_idle_total",
   "container_paused_total",
   "container_busy_total",
   ""]

/-- Go: `var containerTimeKeys = [ContainerStateMax]string{...}`; the source literal
lists six entries, so the seventh (index of `ContainerStateDone`) is Go's zero
value `""`. -/
def containerTimeKeys : List String :=
  ["",
   "container_wait_duration_seconds",
   "container_start_duration_seconds",
   "container_idle_duration_seconds",
   "container_paused_duration_seconds",
   "container_busy_duration_seconds",
   ""]

/-- Go: `type containerState struct { lock sync.Mutex; state ContainerStateType; start time.Time }`.
The mutex is modelled by sequential application of updates. -/
structure containerState where
  state : ContainerStateType
  start : Int
deriving DecidableEq, Repr

/-- Go: `type requestState struct { lock sync.Mutex; state RequestStateType; start time.Time }`. -/
structure requestState where
  state : RequestStateType
  start : Int
deriving DecidableEq, Repr

/-- Go: `func NewRequestState() RequestState { return &requestState{} }` — zero value:
state `RequestStateNone` (0), start the zero time. -/
def NewRequestState : requestState := { state := RequestStateNone, start := 0 }

/-- Go: `func NewContainerState() ContainerState { return &containerState{} }` — zero value:
state `ContainerStateNone` (0), start the zero time. -/
def NewContainerState : containerState := { state := ContainerStateNone, start := 0 }

/-- The fields of the Go `call` record read by `containerState.UpdateState`:
identity strings `AppID`, `FnID`, `Image`, and whether `call.slots` is a
non-nil `*slotQueue`. -/
structure call where
  AppID : String
  FnID : String
  Image : String
  slots : Bool
deriving DecidableEq, Repr

/-- Observable side effects of `requestState.UpdateState`: the slot-queue hook calls. -/
inductive RequestEffect : Type
  | enterRequestState (s : RequestStateType)
  | exitRequestState (s : RequestStateType)
deriving DecidableEq, Repr

/-- Observable side effects of `containerState.UpdateState`: the hot-function
delta recorded by `setHot` (with its identity tags), the slot-queue hook calls,
and the gauge / duration stats records. -/
inductive ContainerEffect : Type
  | hotDelta (appId fnId imageName : String) (delta : Int)
  | enterContainerState (s : ContainerStateType)
  | exitContainerState (s : ContainerStateType)
  | gauge (s : ContainerStateType) (delta : Int)
  | duration (s : ContainerStateType) (ms : Int)
deriving DecidableEq, Repr

/-- Go: `func (c *requestState) UpdateState(ctx, newState, slots)`.
Under the lock: if `c.state < newState`, record `now = time.Now()`,
`oldState = c.state`, set `c.state = newState; c.start = now`; otherwise `now`,
`oldState` keep their zero values.  After unlocking, return if `now.IsZero()`;
else if `slots != nil`, call `enterRequestState(newState)` then
`exitRequestState(oldState)`.  Returns the updated tracker and the emitted effects. -/
def requestState.UpdateState (c : requestState) (clock : Int)
    (newState : RequestStateType) (slots : Bool) :
    requestState × List RequestEffect :=
  let accepted := c.state.toNat < newState.toNat
  let now : Int := if accepted then clock else 0
  let oldState : RequestStateType := if accepted then c.state else RequestStateNone
  let c' : requestState := if accepted then { state := newState, start := clock } else c
  if now = 0 then (c', [])
  else if slots then
    (c', [RequestEffect.enterRequestState newState, RequestEffect.exitRequestState oldState])
  else (c', [])

/-- Go: `func isIdleState(state ContainerStateType) bool
{ return state == ContainerStateIdle || state == ContainerStatePaused }`. -/
def isIdleState (state : ContainerStateType) : Bool :=
  state == ContainerStateIdle || state == ContainerStatePaused

/-- The transition-legality test of `containerState.UpdateState`'s `if`:
`c.state < newState || (c.state == Paused && newState == Idle) ||
(c.state == Busy && isIdleState(newState))`. -/
def containerTransitionAllowed (s newState : ContainerStateType) : Bool :=
  decide (s.toNat < newState.toNat) ||
    (s == ContainerStatePaused && newState == ContainerStateIdle) ||
    (s == ContainerStateBusy && isIdleState newState)

/-- Go: `func (c *containerState) GetState() string` — reads the state under
lock and returns `containerStateKeys[res]`.  Go array indexing is total here
because the index is provably below `ContainerStateMax`; `getD` with default
`""` is used, and the bound is proved separately. -/
def containerState.GetState (c : containerState) : String :=
  containerStateKeys.getD c.state.toNat ""

/-- Go: `func setHot(ctx, appId, fnId, imageName, state)` — returns without
recording unless `state` is `ContainerStateStart` or `ContainerStateDone`;
otherwise records `hotFunctionMeasure.M(isHotState)` with `isHotState = 1` for
`Start`, `-1` otherwise, tagged with appId/fnId/imageName. -/
def setHot (appId fnId imageName : String) (state : ContainerStateType) :
    List ContainerEffect :=
  if state != ContainerStateStart && state != ContainerStateDone then []
  else
    let isHotState : Int := if state == ContainerStateStart then 1 else -1
    [ContainerEffect.hotDelta appId fnId imageName isHotState]

/-- Go: `func (c *containerState) UpdateState(ctx, newState, call)`.
Under the lock: if the transition is allowed, record `now = time.Now()`,
`oldState = c.state`, `before = c.start`, and set `c.state = newState;
c.start = now`; otherwise `now`, `oldState`, `before` keep their zero values.
After unlocking, return if `now.IsZero()`.  Otherwise: if `call.slots != nil`,
run `setHot` then `enterContainerState(newState)` then
`exitContainerState(oldState)`; then record a `-1` gauge for `oldState` if its
gauge key is nonempty, a duration `int64(now.Sub(before)/time.Millisecond)` for
`oldState` if its time key is nonempty, and a `+1` gauge for `newState` if its
gauge key is nonempty.  `time.Millisecond` is `1000000` ns and Go `int64`
division truncates toward zero (`Int.tdiv`). -/
def containerState.UpdateState (c : containerState) (clock : Int)
    (newState : ContainerStateType) (cl : call) :
    containerState × List ContainerEffect :=
  let slots := cl.slots
  let accepted := containerTransitionAllowed c.state newState
  let now : Int := if accepted then clock else 0
  let oldState : ContainerStateType := if accepted then c.state else ContainerStateNone
  let before : Int := if accepted then c.start else 0
  let c' : containerState := if accepted then { state := newState, start := clock } else c
  if now = 0 then (c', [])
  else
    let slotEffects : List ContainerEffect :=
      if slots then
        setHot cl.AppID cl.FnID cl.Image newState ++
          [ContainerEffect.enterContainerState newState,
           ContainerEffect.exitContainerState oldState]
      else []
    let oldGauge : List ContainerEffect :=
      if containerGaugeKeys.getD oldState.toNat "" != "" then
        [ContainerEffect.gauge oldState (-1)]
      else []
    let oldTime : List ContainerEffect :=
      if containerTimeKeys.getD oldState.toNat "" != "" then
        [ContainerEffect.duration oldState ((now - before).tdiv 1000000)]
      else []
    let newGauge : List ContainerEffect :=
      if containerGaugeKeys.getD newState.toNat "" != "" then
        [ContainerEffect.gauge newState 1]
      else []
    (c', slotEffects ++ oldGauge ++ oldTime ++ newGauge)

/-- Claim-side transition rule, written from the spec's words: the transition
from `s` to `newState` is accepted iff `s < newState`, or
`(s, newState) = (Paused, Idle)`, or `s = Busy` and `newState` is `Idle` or
`Paused`.  To be compared with the source's `containerTransitionAllowed`. -/
def claimedContainerAccepts (s newState : ContainerStateType) : Bool :=
  decide (s.toNat < newState.toNat) ||
    (s == ContainerStatePaused && newState == ContainerStateIdle) ||
    (s == ContainerStateBusy &&
      (newState == ContainerStateIdle || newState == ContainerStatePaused))

/-- Recognizer for hot-function delta effects. -/
def ContainerEffect.isHotDelta : ContainerEffect → Bool
  | ContainerEffect.hotDelta _ _ _ _ => true
  | _ => false

/-- Recognizer for gauge effects. -/
def ContainerEffect.isGauge : ContainerEffect → Bool
  | ContainerEffect.gauge _ _ => true
  | _ => false

/-- Recognizer for duration effects. -/
def ContainerEffect.isDuration : ContainerEffect → Bool
  | ContainerEffect.duration _ _ => true
  | _ => false

/-- Recognizer for slot-queue hook invocations (enter/exit notifications). -/
def ContainerEffect.isSlotHook : ContainerEffect → Bool
  | ContainerEffect.enterContainerState _ => true
  | ContainerEffect.exitContainerState _ => true
  | _ => false

/-- Apply a sequence of `requestState.UpdateState` calls (each a clock value,
target state, and slot-queue presence), returning the final tracker state.
The per-tracker mutex serializes concurrent calls, so a sequence models any
interleaving. -/
def runRequestUpdates (c : requestState) :
    List (Int × RequestStateType × Bool) → requestState
  | [] => c
  | (clock, n, s) :: rest => runRequestUpdates (c.UpdateState clock n s).1 rest

/-- Like `runRequestUpdates`, but also collects every emitted effect in call order. -/
def runRequestTrace (c : requestState) :
    List (Int × RequestStateType × Bool) → requestState × List RequestEffect
  | [] => (c, [])
  | (clock, n, s) :: rest =>
    let step := c.UpdateState clock n s
    let next := runRequestTrace step.1 rest
    (next.1, step.2 ++ next.2)

/-- The four real request states, in `iota` order. -/
def allRequestStates : List RequestStateType :=
  [RequestStateNone, RequestStateWait, RequestStateExec, RequestStateDone]

/-- The seven real container states, in `iota` order. -/
def allContainerStates : List ContainerStateType :=
  [ContainerStateNone, ContainerStateWait, ContainerStateStart, ContainerStateIdle,
   ContainerStatePaused, ContainerStateBusy, ContainerStateDone]

/-! ## Helper lemmas -/

/-- The stored tracker after a request update: the new state and clock when the
forward check passes, the unchanged tracker otherwise. -/
theorem requestState.request_update_fst (c : requestState) (clock : Int)
    (n : RequestStateType) (s : Bool) :
    (c.UpdateState clock n s).1 =
      if c.state.toNat < n.toNat then { state := n, start := clock } else c := by
  unfold requestState.UpdateState
  by_cases h : c.state.toNat < n.toNat
  · cases s <;> simp [h] <;> split <;> rfl
  · simp [h]

/-- The stored tracker after a container update: the new state and clock when the
legality check passes, the unchanged tracker otherwise. -/
theorem containerState.container_update_fst (c : containerState) (clock : Int)
    (n : ContainerStateType) (cl : call) :
    (c.UpdateState clock n cl).1 =
      if containerTransitionAllowed c.state n then { state := n, start := clock } else c := by
  unfold containerState.UpdateState
  by_cases h : containerTransitionAllowed c.state n <;> simp [h] <;> split <;> simp

/-- The source's legality test agrees with the claim's transition rule on all 49 pairs. -/
theorem containerTransitionAllowed_eq_claimed (s n : ContainerStateType) :
    containerTransitionAllowed s n = claimedContainerAccepts s n := by
  revert s n; decide

/-- A single request update never decreases the stored state. -/
theorem requestState.update_state_le (c : requestState) (clock : Int)
    (n : RequestStateType) (s : Bool) :
    c.state.toNat ≤ ((c.UpdateState clock n s).1).state.toNat := by
  rw [requestState.request_update_fst]
  by_cases h : c.state.toNat < n.toNat <;> simp [h]
  exact Nat.le_of_lt h

/-- The effects of an accepted request update with a nonzero clock. -/
theorem requestState.request_update_effects (c : requestState) (clock : Int)
    (n : RequestStateType) (s : Bool) (hclock : clock ≠ 0)
    (hacc : c.state.toNat < n.toNat) :
    (c.UpdateState clock n s).2 =
      if s then [RequestEffect.enterRequestState n, RequestEffect.exitRequestState c.state]
      else [] := by
  unfold requestState.UpdateState
  cases s <;> simp [hacc, hclock]

/-- The effects of an accepted container update with a nonzero clock, exactly as
emitted by the source: slot-queue block, then old-state gauge, old-state
duration, new-state gauge. -/
theorem containerState.container_update_effects (c : containerState) (clock : Int)
    (n : ContainerStateType) (cl : call) (hclock : clock ≠ 0)
    (hacc : containerTransitionAllowed c.state n = true) :
    (c.UpdateState clock n cl).2 =
      (if cl.slots then
          setHot cl.AppID cl.FnID cl.Image n ++
            [ContainerEffect.enterContainerState n,
             ContainerEffect.exitContainerState c.state]
        else []) ++
      (if containerGaugeKeys.getD c.state.toNat "" != "" then
          [ContainerEffect.gauge c.state (-1)] else []) ++
      (if containerTimeKeys.getD c.state.toNat "" != "" then
          [ContainerEffect.duration c.state ((clock - c.start).tdiv 1000000)] else []) ++
      (if containerGaugeKeys.getD n.toNat "" != "" then
          [ContainerEffect.gauge n 1] else []) := by
  unfold containerState.UpdateState
  simp [hacc, hclock]

/-! ## Claim theorems -/

/-- C1: for every pair `(s, newState)` of defined `ContainerStateType` values,
`containerState.UpdateState` with current state `s` accepts the transition
(storing the new state and timestamp) iff `s < newState`, or
`(s, newState) = (Paused, Idle)`, or `s = Busy` and `newState` is `Idle` or
`Paused`; for every other pair (including `s = newState`) the stored state is
left unchanged. -/
theorem containerState.updateState_partial_order (c : containerState)
    (clock : Int) (n : ContainerStateType) (cl : call) :
    (c.UpdateState clock n cl).1 =
      if claimedContainerAccepts c.state n then { state := n, start := clock }
      else c := by
  rw [containerState.container_update_fst, containerTransitionAllowed_eq_claimed]

/-- C2: the request tracker's state is monotonically non-decreasing: each call
accepts exactly when `currentState < newState` (then stores the new state and
timestamp), a call with `newState ≤ currentState` changes neither `state` nor
`start`, and over any sequence of calls the state never decreases in the order
`None < Wait < Exec < Done`. -/
theorem requestState.updateState_monotone :
    (∀ (c : requestState) (clock : Int) (n : RequestStateType) (s : Bool),
        c.state.toNat ≤ ((c.UpdateState clock n s).1).state.toNat ∧
        (c.UpdateState clock n s).1 =
          (if c.state.toNat < n.toNat then { state := n, start := clock } else c)) ∧
    ∀ (c : requestState) (calls : List (Int × RequestStateType × Bool)),
      c.state.toNat ≤ (runRequestUpdates c calls).state.toNat := by
  refine ⟨fun c clock n s => ⟨requestState.update_state_le c clock n s,
    requestState.request_update_fst c clock n s⟩, fun c calls => ?_⟩
  induction calls generalizing c with
  | nil => exact Nat.le_refl _
  | cons hd tl ih =>
    obtain ⟨clock, n, s⟩ := hd
    exact Nat.le_trans (requestState.update_state_le c clock n s) (ih _)

/-- C3 counterexample: the container transition `None → Start` is accepted, yet
when the call's slot-queue reference is nil the update emits no hot-delta at
all — refuting the claim that every accepted transition to `Start` emits
exactly one `+1` hot-delta. -/
theorem containerState.hotDelta_counterexample :
    containerTransitionAllowed NewContainerState.state ContainerStateStart = true ∧
    (NewContainerState.UpdateState 1 ContainerStateStart
        { AppID := "a", FnID := "f", Image := "i", slots := false }).2.filter
      ContainerEffect.isHotDelta = [] :=
  ⟨rfl, rfl⟩

/-- C3 (amended): for every accepted container transition whose call carries a
non-nil slot-queue reference, `newState = Start` emits exactly one `+1`
hot-delta tagged with the call's `(AppID, FnID, Image)`, `newState = Done`
emits exactly one `-1` hot-delta, and any other `newState` emits none; when the
slot-queue reference is nil, no hot-delta is emitted. -/
theorem containerState.updateState_hotDelta (c : containerState) (clock : Int)
    (n : ContainerStateType) (cl : call) (hclock : clock ≠ 0)
    (hacc : containerTransitionAllowed c.state n = true) :
    (c.UpdateState clock n cl).2.filter ContainerEffect.isHotDelta =
      if cl.slots then
        (if n = ContainerStateStart then
          [ContainerEffect.hotDelta cl.AppID cl.FnID cl.Image 1]
        else if n = ContainerStateDone then
          [ContainerEffect.hotDelta cl.AppID cl.FnID cl.Image (-1)]
        else [])
      else [] := by
  rw [containerState.container_update_effects c clock n cl hclock hacc]
  obtain ⟨s, st⟩ := c
  cases hs : cl.slots <;> cases s <;> cases n <;>
    simp_all [setHot, ContainerEffect.isHotDelta, ContainerEffect.isGauge,
      containerGaugeKeys, containerTimeKeys, ContainerStateType.toNat,
      List.filter_append]

/-- C3 witness: a concrete accepted `None → Start` transition with an attached
slot queue emits exactly the single `+1` hot-delta tagged with its identity. -/
theorem containerState.updateState_hotDelta_witness :
    (NewContainerState.UpdateState 1 ContainerStateStart
        { AppID := "a", FnID := "f", Image := "i", slots := true }).2.filter
      ContainerEffect.isHotDelta = [ContainerEffect.hotDelta "a" "f" "i" 1] := by
  have h := containerState.updateState_hotDelta NewContainerState 1
    ContainerStateStart { AppID := "a", FnID := "f", Image := "i", slots := true }
    (by decide) (by decide)
  simpa using h

/-- C4: a rejected transition on either tracker is a pure no-op: no notifier
hook invocations, no telemetry emissions, and both the stored state and the
start timestamp are exactly as before the call. -/
theorem updateState_rejected_noop :
    (∀ (c : requestState) (clock : Int) (n : RequestStateType) (s : Bool),
        ¬ c.state.toNat < n.toNat → c.UpdateState clock n s = (c, [])) ∧
    ∀ (c : containerState) (clock : Int) (n : ContainerStateType) (cl : call),
      containerTransitionAllowed c.state n = false →
        c.UpdateState clock n cl = (c, []) := by
  constructor
  · intro c clock n s h
    unfold requestState.UpdateState
    simp [h]
  · intro c clock n cl h
    unfold containerState.UpdateState
    simp [h]

/-- C4 witness: concrete rejected transitions (`Done → Wait` on the request
tracker, `Idle → Wait` on the container tracker) change nothing and emit
nothing. -/
theorem updateState_rejected_noop_witness :
    ({ state := RequestStateDone, start := 5 } : requestState).UpdateState 7
        RequestStateWait true = ({ state := RequestStateDone, start := 5 }, []) ∧
    ({ state := ContainerStateIdle, start := 5 } : containerState).UpdateState 7
        ContainerStateWait { AppID := "a", FnID := "f", Image := "i", slots := true } =
      ({ state := ContainerStateIdle, start := 5 }, []) :=
  ⟨updateState_rejected_noop.1 _ 7 _ true (by decide),
   updateState_rejected_noop.2 _ 7 _ _ (by decide)⟩

/-- C5: every accepted container transition emits a `-1` gauge observation for
the previous state and a `+1` gauge observation for the new state, except that
`None` and `Done` have no associated gauge and are skipped silently; no other
gauge observations are emitted. -/
theorem containerState.updateState_gauges (c : containerState) (clock : Int)
    (n : ContainerStateType) (cl : call) (hclock : clock ≠ 0)
    (hacc : containerTransitionAllowed c.state n = true) :
    (c.UpdateState clock n cl).2.filter ContainerEffect.isGauge =
      (if c.state ≠ ContainerStateNone ∧ c.state ≠ ContainerStateDone then
          [ContainerEffect.gauge c.state (-1)] else []) ++
      (if n ≠ ContainerStateNone ∧ n ≠ ContainerStateDone then
          [ContainerEffect.gauge n 1] else []) := by
  rw [containerState.container_update_effects c clock n cl hclock hacc]
  obtain ⟨s, st⟩ := c
  cases hs : cl.slots <;> cases s <;> cases n <;>
    simp_all [setHot, ContainerEffect.isGauge, containerGaugeKeys,
      containerTimeKeys, ContainerStateType.toNat, List.filter_append]

/-- C5 witness: a concrete accepted `Wait → Busy` transition emits exactly the
gauges `wait -1` and `busy +1`. -/
theorem containerState.updateState_gauges_witness :
    (({ state := ContainerStateWait, start := 2 } : containerState).UpdateState 5
        ContainerStateBusy { AppID := "a", FnID := "f", Image := "i", slots := false }).2.filter
      ContainerEffect.isGauge =
      [ContainerEffect.gauge ContainerStateWait (-1),
       ContainerEffect.gauge ContainerStateBusy 1] := by
  have h := containerState.updateState_gauges
    { state := ContainerStateWait, start := 2 } 5 ContainerStateBusy
    { AppID := "a", FnID := "f", Image := "i", slots := false }
    (by decide) (by decide)
  simpa using h

/-- C6: every accepted container transition whose previous state is neither
`None` nor `Done` emits exactly one duration observation for the previous
state, whose value is the new transition timestamp minus the timestamp recorded
when the previous state was entered, truncated to whole milliseconds
(nanosecond difference divided by 1000000, truncating toward zero); when the
previous state is `None` or `Done` no duration observation is emitted. -/
theorem containerState.updateState_duration (c : containerState) (clock : Int)
    (n : ContainerStateType) (cl : call) (hclock : clock ≠ 0)
    (hacc : containerTransitionAllowed c.state n = true) :
    (c.UpdateState clock n cl).2.filter ContainerEffect.isDuration =
      if c.state ≠ ContainerStateNone ∧ c.state ≠ ContainerStateDone then
        [ContainerEffect.duration c.state ((clock - c.start).tdiv 1000000)]
      else [] := by
  rw [containerState.container_update_effects c clock n cl hclock hacc]
  obtain ⟨s, st⟩ := c
  cases hs : cl.slots <;> cases s <;> cases n <;>
    simp_all [setHot, ContainerEffect.isDuration, containerGaugeKeys,
      containerTimeKeys, ContainerStateType.toNat, List.filter_append]

/-- C6 witness: a concrete accepted `Busy → Idle` transition entered at
timestamp 3 ns and left at 9000007 ns records a duration of 9 ms for `Busy`. -/
theorem containerState.updateState_duration_witness :
    (({ state := ContainerStateBusy, start := 3 } : containerState).UpdateState 9000007
        ContainerStateIdle { AppID := "a", FnID := "f", Image := "i", slots := true }).2.filter
      ContainerEffect.isDuration = [ContainerEffect.duration ContainerStateBusy 9] := by
  have h := containerState.updateState_duration
    { state := ContainerStateBusy, start := 3 } 9000007 ContainerStateIdle
    { AppID := "a", FnID := "f", Image := "i", slots := true }
    (by decide) (by decide)
  simpa using h

/-- C7: on every accepted transition of either tracker with an attached slot
notifier, the "enter newState" hook is invoked and then the "exit
previousState" hook, in that order, each exactly once; with no notifier (nil)
no hooks are invoked, and in both cases the new state is stored. -/
theorem updateState_notifier_hooks :
    (∀ (c : requestState) (clock : Int) (n : RequestStateType) (s : Bool),
        clock ≠ 0 → c.state.toNat < n.toNat →
        (c.UpdateState clock n s).2 =
            (if s then [RequestEffect.enterRequestState n,
                        RequestEffect.exitRequestState c.state]
             else []) ∧
          ((c.UpdateState clock n s).1).state = n) ∧
    ∀ (c : containerState) (clock : Int) (n : ContainerStateType) (cl : call),
      clock ≠ 0 → containerTransitionAllowed c.state n = true →
      (c.UpdateState clock n cl).2.filter ContainerEffect.isSlotHook =
          (if cl.slots then [ContainerEffect.enterContainerState n,
                             ContainerEffect.exitContainerState c.state]
           else []) ∧
        ((c.UpdateState clock n cl).1).state = n := by
  constructor
  · intro c clock n s hclock hacc
    refine ⟨requestState.request_update_effects c clock n s hclock hacc, ?_⟩
    rw [requestState.request_update_fst]
    simp [hacc]
  · intro c clock n cl hclock hacc
    constructor
    · rw [containerState.container_update_effects c clock n cl hclock hacc]
      obtain ⟨s, st⟩ := c
      cases hs : cl.slots <;> cases s <;> cases n <;>
        simp_all [setHot, ContainerEffect.isSlotHook, containerGaugeKeys,
          containerTimeKeys, ContainerStateType.toNat, List.filter_append]
    · rw [containerState.container_update_fst]
      simp [hacc]

/-- C7 witness: concrete accepted transitions with an attached notifier invoke
enter-then-exit exactly once on each tracker. -/
theorem updateState_notifier_hooks_witness :
    ((({ state := RequestStateWait, start := 1 } : requestState).UpdateState 4
        RequestStateExec true).2 =
      [RequestEffect.enterRequestState RequestStateExec,
       RequestEffect.exitRequestState RequestStateWait]) ∧
    (({ state := ContainerStatePaused, start := 1 } : containerState).UpdateState 4
        ContainerStateIdle { AppID := "a", FnID := "f", Image := "i", slots := true }).2.filter
      ContainerEffect.isSlotHook =
      [ContainerEffect.enterContainerState ContainerStateIdle,
       ContainerEffect.exitContainerState ContainerStatePaused] := by
  have h1 := (updateState_notifier_hooks.1 { state := RequestStateWait, start := 1 }
    4 RequestStateExec true (by decide) (by decide)).1
  have h2 := (updateState_notifier_hooks.2 { state := ContainerStatePaused, start := 1 }
    4 ContainerStateIdle { AppID := "a", FnID := "f", Image := "i", slots := true }
    (by decide) (by decide)).1
  exact ⟨by simpa using h1, by simpa using h2⟩

/-- C8: the enumerations carry the exact integer orderings
`RequestState {None=0, Wait=1, Exec=2, Done=3}` and
`ContainerState {None=0, Wait=1, Start=2, Idle=3, Paused=4, Busy=5, Done=6}`,
each trailing sentinel equals the count of real states (`RequestStateMax = 4`,
`ContainerStateMax = 7`), and the `Max`-sized lookup tables cover every real
state (every state's index is within each table's bounds). -/
theorem state_enumerations_and_sentinels :
    (RequestStateNone.toNat = 0 ∧ RequestStateWait.toNat = 1 ∧
      RequestStateExec.toNat = 2 ∧ RequestStateDone.toNat = 3) ∧
    (ContainerStateNone.toNat = 0 ∧ ContainerStateWait.toNat = 1 ∧
      ContainerStateStart.toNat = 2 ∧ ContainerStateIdle.toNat = 3 ∧
      ContainerStatePaused.toNat = 4 ∧ ContainerStateBusy.toNat = 5 ∧
      ContainerStateDone.toNat = 6) ∧
    RequestStateMax = 4 ∧ ContainerStateMax = 7 ∧
    allRequestStates.length = RequestStateMax ∧
    allContainerStates.length = ContainerStateMax ∧
    (∀ r : RequestStateType, r ∈ allRequestStates) ∧
    (∀ s : ContainerStateType, s ∈ allContainerStates) ∧
    containerStateKeys.length = ContainerStateMax ∧
    containerGaugeKeys.length = ContainerStateMax ∧
    containerTimeKeys.length = ContainerStateMax ∧
    (∀ s : ContainerStateType, s.toNat < containerStateKeys.length ∧
      s.toNat < containerGaugeKeys.length ∧ s.toNat < containerTimeKeys.length) ∧
    (∀ r : RequestStateType, r.toNat < RequestStateMax) := by
  decide

/-- From `Done`, a further `UpdateState(Done)` call is a no-op with no effects. -/
theorem requestState.update_done_noop (u clock : Int) (s : Bool) :
    ({ state := RequestStateDone, start := u } : requestState).UpdateState clock
        RequestStateDone s = ({ state := RequestStateDone, start := u }, []) := by
  unfold requestState.UpdateState
  simp [RequestStateType.toNat]

/-- A tracker already at `Done` absorbs any further sequence of `UpdateState(Done)`
calls without state change or effects. -/
theorem runRequestTrace_done_absorb (u : Int) (clocks : List Int) :
    runRequestTrace { state := RequestStateDone, start := u }
        (clocks.map fun t => (t, RequestStateDone, true)) =
      ({ state := RequestStateDone, start := u }, []) := by
  induction clocks with
  | nil => rfl
  | cons t rest ih =>
    simp [runRequestTrace, requestState.update_done_noop, ih]

/-- C9: when N callers invoke `UpdateState(Done)` on one request tracker
starting at `Wait` (serialized in any order by the tracker's lock, each with a
nonzero clock and an attached notifier), exactly one call performs the accepted
transition: the whole run emits the notifier hooks exactly once in total, and
every losing call is a clean no-op adding nothing. -/
theorem requestState.single_winner (s0 : Int) (clocks : List Int)
    (hne : clocks ≠ []) (hc : ∀ t ∈ clocks, t ≠ 0) :
    (runRequestTrace { state := RequestStateWait, start := s0 }
        (clocks.map fun t => (t, RequestStateDone, true))).2 =
      [RequestEffect.enterRequestState RequestStateDone,
       RequestEffect.exitRequestState RequestStateWait] := by
  cases clocks with
  | nil => exact absurd rfl hne
  | cons t rest =>
    have ht : t ≠ 0 := hc t (List.mem_cons_self t rest)
    have hstep : ({ state := RequestStateWait, start := s0 } : requestState).UpdateState t
        RequestStateDone true =
        ({ state := RequestStateDone, start := t },
         [RequestEffect.enterRequestState RequestStateDone,
          RequestEffect.exitRequestState RequestStateWait]) := by
      unfold requestState.UpdateState
      simp [RequestStateType.toNat, ht]
    simp [runRequestTrace, hstep, runRequestTrace_done_absorb]

/-- C9 witness: two racing `UpdateState(Done)` calls from `Wait` notify exactly once. -/
theorem requestState.single_winner_witness :
    (runRequestTrace { state := RequestStateWait, start := 0 }
        (([1, 2] : List Int).map fun t => (t, RequestStateDone, true))).2 =
      [RequestEffect.enterRequestState RequestStateDone,
       RequestEffect.exitRequestState RequestStateWait] :=
  requestState.single_winner 0 [1, 2] (by decide) (by decide)

/-- C10: `GetState` always returns one of the seven defined labels: a freshly
created tracker returns `"none"`, every stored state is a defined enum value
whose index is within the label table's bounds, so the lookup never fails. -/
theorem containerState.getState_total :
    NewContainerState.GetState = "none" ∧
    (∀ c : containerState, c.GetState ∈
      ["none", "wait", "start", "idle", "paused", "busy", "done"]) ∧
    ∀ c : containerState, c.state.toNat < containerStateKeys.length := by
  refine ⟨rfl, ?_, ?_⟩ <;> intro c <;> obtain ⟨s, st⟩ := c <;> cases s <;>
    simp [containerState.GetState, containerStateKeys, ContainerStateType.toNat]
